import Mathlib

/-!
Shallow embedding of `src/recap/types.py` (the recap schema type model).

Python objects of the `RecapType` hierarchy are modelled as an inductive
family.  Attribute values (which in Python are arbitrary objects: the JSON-like
scalars and containers fed to `from_dict`, plus nested `RecapType` instances)
are modelled by `Value`.  Every instance attribute that the Python code can
overwrite with an arbitrary value via `setattr` (proxy override application)
is therefore typed as `Value`.

The process-wide `RecapType.type_registry` dict is modelled as an explicit
`Registry` value threaded through every operation that can read or write it.
Mutation of the registry dict becomes functional update; raising becomes
`Except`.
-/

/-- Python exception classes raised by the module (with their messages). -/
inductive Err where
  | valueError (msg : String) : Err
  | typeError (msg : String) : Err
  | attributeError (msg : String) : Err
  | outOfFuel : Err
deriving Repr, DecidableEq

mutual

/-- A Python value as it occurs in this module: `None`, booleans, integers,
strings, lists, string-keyed dicts, and `RecapType` instances. -/
inductive Value where
  | vnull : Value
  | vbool : Bool → Value
  | vint : Int → Value
  | vstr : String → Value
  | vlist : ValueList → Value
  | vdict : AttrList → Value
  | vtype : RecapType → Value

/-- A Python list of values. -/
inductive ValueList where
  | nil : ValueList
  | cons : Value → ValueList → ValueList

/-- A Python dict with string keys, in insertion order. -/
inductive AttrList where
  | anil : AttrList
  | acons : String → Value → AttrList → AttrList

/-- The attributes set by `RecapType.__init__`, in order:
`type_`, `logical`, `alias`, `doc`, `extra_attrs`. -/
inductive Base where
  | mk : Value → Value → Value → Value → Value → Base

/-- One constructor per concrete Python class of the hierarchy; each carries
the base attributes plus the class-specific instance attributes set by its
`__init__` (`IntType`: `bits`, `signed`; `FloatType`: `bits`; `StringType`,
`BytesType`: `bytes_`, `variable`; `ListType`: `values`, `length`,
`variable`; `MapType`: `keys`, `values`; `StructType`: `fields`;
`EnumType`: `symbols`; `UnionType`: `types`; `ProxyType`: `_resolved`,
its `alias` attribute living in the base as in the source). -/
inductive RecapType where
  | nullT : Base → RecapType
  | boolT : Base → RecapType
  | intT : Base → Value → Value → RecapType
  | floatT : Base → Value → RecapType
  | stringT : Base → Value → Value → RecapType
  | bytesT : Base → Value → Value → RecapType
  | listT : Base → Value → Value → Value → RecapType
  | mapT : Base → Value → Value → RecapType
  | structT : Base → Value → RecapType
  | enumT : Base → Value → RecapType
  | unionT : Base → Value → RecapType
  | proxyT : Base → Value → RecapType

end

/-- Convert a Lean list literal to a `ValueList` (notation helper only). -/
def VL : List Value → ValueList
  | [] => .nil
  | v :: rest => .cons v (VL rest)

/-- Convert a Lean list literal to an `AttrList` (notation helper only). -/
def AL : List (String × Value) → AttrList
  | [] => .anil
  | (k, v) :: rest => .acons k v (AL rest)

def Base.type_ : Base → Value
  | .mk t _ _ _ _ => t

def Base.logicalA : Base → Value
  | .mk _ l _ _ _ => l

def Base.aliasA : Base → Value
  | .mk _ _ a _ _ => a

def Base.docA : Base → Value
  | .mk _ _ _ d _ => d

def Base.extraA : Base → Value
  | .mk _ _ _ _ e => e

def RecapType.baseOf : RecapType → Base
  | .nullT b => b
  | .boolT b => b
  | .intT b _ _ => b
  | .floatT b _ => b
  | .stringT b _ _ => b
  | .bytesT b _ _ => b
  | .listT b _ _ _ => b
  | .mapT b _ _ => b
  | .structT b _ => b
  | .enumT b _ => b
  | .unionT b _ => b
  | .proxyT b _ => b

/-- The Python class of an instance (`type(self)`), as a tag. -/
def RecapType.clsOf : RecapType → String
  | .nullT _ => "NullType"
  | .boolT _ => "BoolType"
  | .intT _ _ _ => "IntType"
  | .floatT _ _ => "FloatType"
  | .stringT _ _ _ => "StringType"
  | .bytesT _ _ _ => "BytesType"
  | .listT _ _ _ _ => "ListType"
  | .mapT _ _ _ => "MapType"
  | .structT _ _ => "StructType"
  | .enumT _ _ => "EnumType"
  | .unionT _ _ => "UnionType"
  | .proxyT _ _ => "ProxyType"

/-- Dict lookup (`d[k]` / `k in d` support). Keys are unique in any dict the
code builds, so first-match lookup agrees with Python. -/
def lookupAL (k : String) : AttrList → Option Value
  | .anil => none
  | .acons k' v rest => if k = k' then some v else lookupAL k rest

/-- Dict key removal (used to split `**kwargs` into named parameters and the
collected rest). Preserves the order of the remaining entries. -/
def removeAL (k : String) : AttrList → AttrList
  | .anil => .anil
  | .acons k' v rest => if k = k' then rest else .acons k' v (removeAL k rest)

/-- `d.pop(k, None)`: the popped value (if any) and the remaining dict. -/
def popAL (k : String) : AttrList → Option Value × AttrList
  | .anil => (none, .anil)
  | .acons k' v rest =>
    if k = k' then (some v, rest)
    else
      let p := popAL k rest
      (p.1, .acons k' v p.2)

/-- Dict assignment `d[k] = v`: overwrite in place if the key exists,
otherwise append (Python dict insertion-order semantics). -/
def dictSet (k : String) (v : Value) : AttrList → AttrList
  | .anil => .acons k v .anil
  | .acons k' v' rest =>
    if k = k' then .acons k' v rest else .acons k' v' (dictSet k v rest)

/-- `len(d)` for a dict. -/
def lenAL : AttrList → Nat
  | .anil => 0
  | .acons _ _ rest => lenAL rest + 1

mutual

/-- Python `==` on the values of this module.  Scalars compare as in Python
(`True == 1`); lists compare elementwise; dicts compare by key set and
per-key values, ignoring insertion order; `RecapType` instances compare by
the hierarchy's `__eq__` methods (`recapEq`); values of different kinds are
unequal. -/
def pyEq : Value → Value → Bool
  | .vnull, .vnull => true
  | .vbool a, .vbool b => a == b
  | .vbool a, .vint n => (if a then (1 : Int) else 0) == n
  | .vint n, .vbool b => n == (if b then (1 : Int) else 0)
  | .vint a, .vint b => a == b
  | .vstr a, .vstr b => a == b
  | .vlist a, .vlist b => pyEqL a b
  | .vdict a, .vdict b => lenAL a == lenAL b && pyEqD a b
  | .vtype a, .vtype b => recapEq a b
  | _, _ => false
termination_by structural x _ => x

/-- Python list `==`: same length, elementwise equal. -/
def pyEqL : ValueList → ValueList → Bool
  | .nil, .nil => true
  | .cons x xs, .cons y ys => pyEq x y && pyEqL xs ys
  | _, _ => false
termination_by structural x _ => x

/-- Every key of the first dict is present in the second with an equal value
(with the length check in `pyEq` this is Python dict `==`). -/
def pyEqD : AttrList → AttrList → Bool
  | .anil, _ => true
  | .acons k v rest, b =>
    (match lookupAL k b with
     | some w => pyEq v w
     | none => false) && pyEqD rest b
termination_by structural x _ => x

/-- `RecapType.__eq__` and its per-class refinements: the class check
`type(self) is type(other)`, the base tuple
`(type_, logical, alias, doc, extra_attrs)`, then the class-specific fields.
`ProxyType.__eq__` re-compares `self.alias`; `_resolved` is never compared. -/
def recapEq : RecapType → RecapType → Bool
  | .nullT a, .nullT b => baseEq a b
  | .boolT a, .boolT b => baseEq a b
  | .intT a x y, .intT b x' y' => baseEq a b && (pyEq x x' && pyEq y y')
  | .floatT a x, .floatT b x' => baseEq a b && pyEq x x'
  | .stringT a x y, .stringT b x' y' => baseEq a b && (pyEq x x' && pyEq y y')
  | .bytesT a x y, .bytesT b x' y' => baseEq a b && (pyEq x x' && pyEq y y')
  | .listT a x y z, .listT b x' y' z' =>
    baseEq a b && (pyEq x x' && pyEq y y' && pyEq z z')
  | .mapT a x y, .mapT b x' y' => baseEq a b && (pyEq x x' && pyEq y y')
  | .structT a x, .structT b x' => baseEq a b && pyEq x x'
  | .enumT a x, .enumT b x' => baseEq a b && pyEq x x'
  | .unionT a x, .unionT b x' => baseEq a b && pyEq x x'
  | .proxyT a _, .proxyT b _ =>
    baseEq a b && (match a, b with | .mk _ _ al _ _, .mk _ _ al' _ _ => pyEq al al')
  | _, _ => false
termination_by structural x _ => x

/-- Comparison of the base attribute tuple in `RecapType.__eq__`. -/
def baseEq : Base → Base → Bool
  | .mk t l a d e, .mk t' l' a' d' e' =>
    pyEq t t' && pyEq l l' && pyEq a a' && pyEq d d' && pyEq e e'
termination_by structural x _ => x

end

/-- Python `str()` of a value, as used in the module's f-string error
messages.  Exact for the scalar values that actually reach messages;
container and instance renderings are abbreviated. -/
def pyStr : Value → String
  | .vnull => "None"
  | .vbool b => if b then "True" else "False"
  | .vint n => toString n
  | .vstr s => s
  | .vlist _ => "<list>"
  | .vdict _ => "<dict>"
  | .vtype _ => "<RecapType>"

/-- Python truthiness (`if alias:` in `from_dict`). -/
def truthy : Value → Bool
  | .vnull => false
  | .vbool b => b
  | .vint n => n != 0
  | .vstr s => !s.isEmpty
  | .vlist .nil => false
  | .vlist _ => true
  | .vdict .anil => false
  | .vdict _ => true
  | .vtype _ => true

/-- The state of `RecapType.type_registry`: alias key to registered
instance, in insertion order. -/
def Registry : Type := List (Value × RecapType)

/-- Dict lookup in the registry (`alias in RecapType.type_registry`,
`RecapType.type_registry[alias]`), with Python `==` on keys. -/
def regLookup (k : Value) : Registry → Option RecapType
  | ([] : List (Value × RecapType)) => none
  | (k', t) :: rest => if pyEq k k' then some t else regLookup k rest

/-- Dict assignment `RecapType.type_registry[alias] = t`. -/
def regSet (k : Value) (t : RecapType) : Registry → Registry
  | ([] : List (Value × RecapType)) => [(k, t)]
  | (k', t') :: rest =>
    if pyEq k k' then (k', t) :: rest else (k', t') :: regSet k t rest

/-- `RecapType.from_alias`: registry lookup, turning the `KeyError` into a
`TypeError` as the source does. -/
def fromAlias (k : Value) (reg : Registry) : Except Err RecapType :=
  match regLookup k reg with
  | some t => .ok t
  | none => .error (.typeError ("No RecapType with alias " ++ pyStr k ++ " found."))

/-- The pure part of `RecapType.__init__`: bind `logical`, `alias`, `doc`
from the keyword arguments (defaulting to `None`) and collect the remaining
keywords, in order, as `extra_attrs`. -/
def initBase (ty : String) (kwargs : AttrList) : Base :=
  .mk (.vstr ty)
    ((lookupAL "logical" kwargs).getD .vnull)
    ((lookupAL "alias" kwargs).getD .vnull)
    ((lookupAL "doc" kwargs).getD .vnull)
    (.vdict (removeAL "doc" (removeAL "alias" (removeAL "logical" kwargs))))

/-- `RecapType.__init__` keyword binding; a `type_` keyword collides with
the positional `type_` argument every subclass supplies. -/
def recapInit (ty : String) (kwargs : AttrList) : Except Err Base :=
  if (lookupAL "type_" kwargs).isSome then
    .error (.typeError "__init__() got multiple values for argument type_")
  else .ok (initBase ty kwargs)

/-- The registration step of `RecapType.__init__` (lines 26-29): nothing to
do when `alias is None`; otherwise fail if the alias is already a registry
key, else bind it to the new instance. -/
def registerKey (key : Value) (t : RecapType) (reg : Registry) : Except Err Registry :=
  match key with
  | .vnull => .ok reg
  | k =>
    if (regLookup k reg).isSome then
      .error (.valueError ("Alias " ++ pyStr k ++ " is already used."))
    else .ok (regSet k t reg)

/-- `NullType(**extra_attrs)`, including the base-class registration. -/
def NullType.init (kwargs : AttrList) (reg : Registry) : Except Err (RecapType × Registry) := do
  let b ← recapInit "null" kwargs
  let t := RecapType.nullT b
  let reg ← registerKey b.aliasA t reg
  .ok (t, reg)

/-- `BoolType(**extra_attrs)`. -/
def BoolType.init (kwargs : AttrList) (reg : Registry) : Except Err (RecapType × Registry) := do
  let b ← recapInit "bool" kwargs
  let t := RecapType.boolT b
  let reg ← registerKey b.aliasA t reg
  .ok (t, reg)

/-- `IntType(bits, signed=True, **extra_attrs)`. -/
def IntType.init (bits signed : Value) (kwargs : AttrList) (reg : Registry) :
    Except Err (RecapType × Registry) := do
  let b ← recapInit "int" kwargs
  let t := RecapType.intT b bits signed
  let reg ← registerKey b.aliasA t reg
  .ok (t, reg)

/-- `FloatType(bits, **extra_attrs)`. -/
def FloatType.init (bits : Value) (kwargs : AttrList) (reg : Registry) :
    Except Err (RecapType × Registry) := do
  let b ← recapInit "float" kwargs
  let t := RecapType.floatT b bits
  let reg ← registerKey b.aliasA t reg
  .ok (t, reg)

/-- `StringType(bytes_, variable=True, **extra_attrs)`. -/
def StringType.init (bytes_ varb : Value) (kwargs : AttrList) (reg : Registry) :
    Except Err (RecapType × Registry) := do
  let b ← recapInit "string" kwargs
  let t := RecapType.stringT b bytes_ varb
  let reg ← registerKey b.aliasA t reg
  .ok (t, reg)

/-- `BytesType(bytes_, variable=True, **extra_attrs)`. -/
def BytesType.init (bytes_ varb : Value) (kwargs : AttrList) (reg : Registry) :
    Except Err (RecapType × Registry) := do
  let b ← recapInit "bytes" kwargs
  let t := RecapType.bytesT b bytes_ varb
  let reg ← registerKey b.aliasA t reg
  .ok (t, reg)

/-- `ListType(values, length=None, variable=True, **extra_attrs)`. -/
def ListType.init (values length varb : Value) (kwargs : AttrList) (reg : Registry) :
    Except Err (RecapType × Registry) := do
  let b ← recapInit "list" kwargs
  let t := RecapType.listT b values length varb
  let reg ← registerKey b.aliasA t reg
  .ok (t, reg)

/-- `MapType(keys, values, **extra_attrs)`. -/
def MapType.init (keys values : Value) (kwargs : AttrList) (reg : Registry) :
    Except Err (RecapType × Registry) := do
  let b ← recapInit "map" kwargs
  let t := RecapType.mapT b keys values
  let reg ← registerKey b.aliasA t reg
  .ok (t, reg)

/-- `StructType(fields=None, **extra_attrs)`; a `None` (or omitted) `fields`
becomes the empty list. -/
def StructType.init (fields : Value) (kwargs : AttrList) (reg : Registry) :
    Except Err (RecapType × Registry) := do
  let b ← recapInit "struct" kwargs
  let t := RecapType.structT b (match fields with | .vnull => .vlist .nil | f => f)
  let reg ← registerKey b.aliasA t reg
  .ok (t, reg)

/-- `EnumType(symbols, **extra_attrs)`. -/
def EnumType.init (symbols : Value) (kwargs : AttrList) (reg : Registry) :
    Except Err (RecapType × Registry) := do
  let b ← recapInit "enum" kwargs
  let t := RecapType.enumT b symbols
  let reg ← registerKey b.aliasA t reg
  .ok (t, reg)

/-- `UnionType(types, **extra_attrs)`. -/
def UnionType.init (types : Value) (kwargs : AttrList) (reg : Registry) :
    Except Err (RecapType × Registry) := do
  let b ← recapInit "union" kwargs
  let t := RecapType.unionT b types
  let reg ← registerKey b.aliasA t reg
  .ok (t, reg)

/-- `ProxyType(alias, **extra_attrs)`: the base class registers `self` under
the keyword `alias` (usually absent), then `self.alias` is overwritten with
the positional target alias and `self._resolved` is set to `None`.  The
registry, holding a reference to `self`, observes the final attributes. -/
def ProxyType.init (aliasArg : Value) (kwargs : AttrList) (reg : Registry) :
    Except Err (RecapType × Registry) := do
  let b ← recapInit "proxy" kwargs
  let bFinal := match b with | .mk ty l _ d e => Base.mk ty l aliasArg d e
  let t := RecapType.proxyT bFinal .vnull
  let reg ← registerKey b.aliasA t reg
  .ok (t, reg)

/-- The built-in alias catalogue (source lines 214-291): the initial contents
of `RecapType.type_registry`.  Each entry is the instance produced by the
constructor call in the source; none of those calls passes `alias`, so the
bulk `update` is the only write. -/
def type_registry0 : Registry := [
  (.vstr "int8", .intT (initBase "int" .anil) (.vint 8) (.vbool true)),
  (.vstr "uint8", .intT (initBase "int" .anil) (.vint 8) (.vbool false)),
  (.vstr "int16", .intT (initBase "int" .anil) (.vint 16) (.vbool true)),
  (.vstr "uint16", .intT (initBase "int" .anil) (.vint 16) (.vbool false)),
  (.vstr "int32", .intT (initBase "int" .anil) (.vint 32) (.vbool true)),
  (.vstr "uint32", .intT (initBase "int" .anil) (.vint 32) (.vbool false)),
  (.vstr "int64", .intT (initBase "int" .anil) (.vint 64) (.vbool true)),
  (.vstr "uint64", .intT (initBase "int" .anil) (.vint 64) (.vbool false)),
  (.vstr "float16", .floatT (initBase "float" .anil) (.vint 16)),
  (.vstr "float32", .floatT (initBase "float" .anil) (.vint 32)),
  (.vstr "float64", .floatT (initBase "float" .anil) (.vint 64)),
  (.vstr "string32", .stringT (initBase "string" .anil) (.vint 2147483648) (.vbool true)),
  (.vstr "string64", .stringT (initBase "string" .anil) (.vint 9223372036854775807) (.vbool true)),
  (.vstr "bytes32", .bytesT (initBase "bytes" .anil) (.vint 2147483648) (.vbool true)),
  (.vstr "bytes64", .bytesT (initBase "bytes" .anil) (.vint 9223372036854775807) (.vbool true)),
  (.vstr "uuid", .stringT (initBase "string" (AL [("logical", .vstr "build.recap.UUID")]))
    (.vint 36) (.vbool false)),
  (.vstr "decimal128", .bytesT (initBase "bytes" (AL [("logical", .vstr "build.recap.Decimal"),
    ("precision", .vint 28), ("scale", .vint 14)])) (.vint 16) (.vbool false)),
  (.vstr "decimal256", .bytesT (initBase "bytes" (AL [("logical", .vstr "build.recap.Decimal"),
    ("precision", .vint 56), ("scale", .vint 28)])) (.vint 32) (.vbool false)),
  (.vstr "duration64", .intT (initBase "int" (AL [("logical", .vstr "build.recap.Duration"),
    ("unit", .vstr "millisecond")])) (.vint 64) (.vbool true)),
  (.vstr "interval128", .bytesT (initBase "bytes" (AL [("logical", .vstr "build.recap.Interval"),
    ("unit", .vstr "millisecond")])) (.vint 16) (.vbool false)),
  (.vstr "time32", .intT (initBase "int" (AL [("logical", .vstr "build.recap.Time"),
    ("unit", .vstr "second")])) (.vint 32) (.vbool true)),
  (.vstr "time64", .intT (initBase "int" (AL [("logical", .vstr "build.recap.Time"),
    ("unit", .vstr "second")])) (.vint 64) (.vbool true)),
  (.vstr "timestamp64", .intT (initBase "int" (AL [("logical", .vstr "build.recap.Timestamp"),
    ("unit", .vstr "millisecond"), ("timezone", .vstr "UTC")])) (.vint 64) (.vbool true)),
  (.vstr "date32", .intT (initBase "int" (AL [("logical", .vstr "build.recap.Date"),
    ("unit", .vstr "day")])) (.vint 32) (.vbool true)),
  (.vstr "date64", .intT (initBase "int" (AL [("logical", .vstr "build.recap.Date"),
    ("unit", .vstr "day")])) (.vint 64) (.vbool true))]

/-- `getattr` restricted to the base attributes every instance has. -/
def getattrB (b : Base) (a : String) : Option Value :=
  match b with
  | .mk t l al d e =>
    if a = "type_" then some t
    else if a = "logical" then some l
    else if a = "alias" then some al
    else if a = "doc" then some d
    else if a = "extra_attrs" then some e
    else none

/-- `setattr` restricted to the base attributes (identity on other names). -/
def setattrB (b : Base) (a : String) (v : Value) : Base :=
  match b with
  | .mk t l al d e =>
    if a = "type_" then .mk v l al d e
    else if a = "logical" then .mk t v al d e
    else if a = "alias" then .mk t l v d e
    else if a = "doc" then .mk t l al v e
    else if a = "extra_attrs" then .mk t l al d v
    else .mk t l al d e

/-- `getattr(t, a)`: the instance attributes of each class, base first. -/
def getattrF : RecapType → String → Option Value
  | .nullT b, a => getattrB b a
  | .boolT b, a => getattrB b a
  | .intT b x y, a =>
    if a = "bits" then some x else if a = "signed" then some y else getattrB b a
  | .floatT b x, a => if a = "bits" then some x else getattrB b a
  | .stringT b x y, a =>
    if a = "bytes_" then some x else if a = "variable" then some y else getattrB b a
  | .bytesT b x y, a =>
    if a = "bytes_" then some x else if a = "variable" then some y else getattrB b a
  | .listT b x y z, a =>
    if a = "values" then some x else if a = "length" then some y
    else if a = "variable" then some z else getattrB b a
  | .mapT b x y, a =>
    if a = "keys" then some x else if a = "values" then some y else getattrB b a
  | .structT b x, a => if a = "fields" then some x else getattrB b a
  | .enumT b x, a => if a = "symbols" then some x else getattrB b a
  | .unionT b x, a => if a = "types" then some x else getattrB b a
  | .proxyT b c, a => if a = "_resolved" then some c else getattrB b a

/-- `setattr(t, a, v)` over the instance attributes of each class. -/
def setattrF : RecapType → String → Value → RecapType
  | .nullT b, a, v => .nullT (setattrB b a v)
  | .boolT b, a, v => .boolT (setattrB b a v)
  | .intT b x y, a, v =>
    if a = "bits" then .intT b v y else if a = "signed" then .intT b x v
    else .intT (setattrB b a v) x y
  | .floatT b x, a, v =>
    if a = "bits" then .floatT b v else .floatT (setattrB b a v) x
  | .stringT b x y, a, v =>
    if a = "bytes_" then .stringT b v y else if a = "variable" then .stringT b x v
    else .stringT (setattrB b a v) x y
  | .bytesT b x y, a, v =>
    if a = "bytes_" then .bytesT b v y else if a = "variable" then .bytesT b x v
    else .bytesT (setattrB b a v) x y
  | .listT b x y z, a, v =>
    if a = "values" then .listT b v y z else if a = "length" then .listT b x v z
    else if a = "variable" then .listT b x y v else .listT (setattrB b a v) x y z
  | .mapT b x y, a, v =>
    if a = "keys" then .mapT b v y else if a = "values" then .mapT b x v
    else .mapT (setattrB b a v) x y
  | .structT b x, a, v =>
    if a = "fields" then .structT b v else .structT (setattrB b a v) x
  | .enumT b x, a, v =>
    if a = "symbols" then .enumT b v else .enumT (setattrB b a v) x
  | .unionT b x, a, v =>
    if a = "types" then .unionT b v else .unionT (setattrB b a v) x
  | .proxyT b c, a, v =>
    if a = "_resolved" then .proxyT b v else .proxyT (setattrB b a v) c

/-- `hasattr(t, a)` over the instance attributes (the data model of an
instance; class-level method names are outside the embedding). -/
def hasattrF (t : RecapType) (a : String) : Bool := (getattrF t a).isSome

/-- Replace the `extra_attrs` attribute of an instance. -/
def setExtraF (t : RecapType) (e : Value) : RecapType :=
  setattrF t "extra_attrs" e

/-- One iteration of the override loop in `ProxyType.resolve`:
`if hasattr(resolved, attr): setattr(resolved, attr, value)
else: resolved.extra_attrs[attr] = value`.  The `else` branch raises if
`extra_attrs` was itself overridden with a non-dict earlier; the error
carries the state already built, since Python leaves the partially
overridden object behind. -/
def applyOverride (t : RecapType) (k : String) (v : Value) :
    Except (Err × RecapType) RecapType :=
  if hasattrF t k then .ok (setattrF t k v)
  else match (RecapType.baseOf t).extraA with
    | .vdict d => .ok (setExtraF t (.vdict (dictSet k v d)))
    | _ => .error (.typeError "extra_attrs does not support item assignment", t)

/-- The override loop of `ProxyType.resolve`, over the proxy's
`extra_attrs.items()` in insertion order. -/
def applyAll (t : RecapType) : AttrList → Except (Err × RecapType) RecapType
  | .anil => .ok t
  | .acons k v rest =>
    match applyOverride t k v with
    | .ok t' => applyAll t' rest
    | .error e => .error e

/-- `ProxyType.resolve` (source lines 199-208).  Returns the value the call
returns (or the exception it raises), the state of the proxy after the call
(its `_resolved` cache may have been written, even when an override step
raises), and the registry after the call.  The deep copy of the registry
entry is the identity on immutable `Value`s; its significance — that
overrides are applied to a copy, not to the registry entry — shows up as
the registry passing through unchanged. -/
def RecapType.resolve (p : RecapType) (reg : Registry) :
    Except Err Value × RecapType × Registry :=
  match p with
  | .proxyT b c =>
    match c with
    | .vnull =>
      match fromAlias b.aliasA reg with
      | .error e => (.error e, .proxyT b .vnull, reg)
      | .ok target =>
        match b.extraA with
        | .vdict items =>
          match applyAll target items with
          | .ok r => (.ok (.vtype r), .proxyT b (.vtype r), reg)
          | .error (e, part) => (.error e, .proxyT b (.vtype part), reg)
        | _ =>
          (.error (.attributeError "extra_attrs is not iterable"),
           .proxyT b (.vtype target), reg)
    | cached => (.ok cached, p, reg)
  | _ => (.error (.attributeError "object has no attribute resolve"), p, reg)

/-- Wrap parsed types as Python values for a constructor's list argument. -/
def toVtypeList : List RecapType → ValueList
  | [] => .nil
  | t :: rest => .cons (.vtype t) (toVtypeList rest)

/-- A recursive `from_dict(x)` call whose argument came out of the input
mapping: the argument must itself be a mapping. -/
def fromDictV (rec : AttrList → Registry → Except Err (RecapType × Registry))
    (v : Value) (reg : Registry) : Except Err (RecapType × Registry) :=
  match v with
  | .vdict d => rec d reg
  | _ => .error (.attributeError "from_dict argument is not a dict")

/-- The union-shorthand loop (source lines 307-314): a dict element is
parsed recursively, a string element `s` is parsed as a fresh
`{"type": s}` mapping, and any other element is skipped. -/
def parseUnionElems (rec : AttrList → Registry → Except Err (RecapType × Registry)) :
    ValueList → Registry → Except Err (List RecapType × Registry)
  | .nil, reg => .ok ([], reg)
  | .cons t rest, reg =>
    match t with
    | .vdict inner => do
      let (x, reg) ← rec inner reg
      let (xs, reg) ← parseUnionElems rec rest reg
      .ok (x :: xs, reg)
    | .vstr s => do
      let (x, reg) ← rec (.acons "type" (.vstr s) .anil) reg
      let (xs, reg) ← parseUnionElems rec rest reg
      .ok (x :: xs, reg)
    | _ => parseUnionElems rec rest reg

/-- Recursive parsing of each element of a `fields`/`types` list (struct and
explicit-union cases), where every element goes straight to `from_dict`. -/
def parseEach (rec : AttrList → Registry → Except Err (RecapType × Registry)) :
    ValueList → Registry → Except Err (List RecapType × Registry)
  | .nil, reg => .ok ([], reg)
  | .cons t rest, reg => do
    let (x, reg) ← fromDictV rec t reg
    let (xs, reg) ← parseEach rec rest reg
    .ok (x :: xs, reg)

/-- The string-tag dispatch of `from_dict` (the `match type_name` statement,
source lines 317-370), acting on the mapping with `alias` and `type` already
popped.  `**type_dict` calls are modelled by splitting the remaining dict
into the constructor's named parameters (with the source defaults) and the
rest, exactly as Python keyword binding does. -/
def dispatchTag (rec : AttrList → Registry → Except Err (RecapType × Registry))
    (name : String) (d : AttrList) (reg : Registry) :
    Except Err (RecapType × Registry) :=
  match name with
  | "null" => NullType.init d reg
  | "bool" => BoolType.init d reg
  | "int" =>
    if (lookupAL "bits" d).isNone then
      .error (.valueError "'bits' attribute is required for 'int' type.")
    else
      IntType.init ((lookupAL "bits" d).getD .vnull)
        ((lookupAL "signed" d).getD (.vbool true))
        (removeAL "signed" (removeAL "bits" d)) reg
  | "float" =>
    if (lookupAL "bits" d).isNone then
      .error (.valueError "'bits' attribute is required for 'float' type.")
    else
      FloatType.init ((lookupAL "bits" d).getD .vnull) (removeAL "bits" d) reg
  | "string" =>
    if (lookupAL "bytes" d).isNone then
      .error (.valueError "'bytes' attribute is required for 'string' type.")
    else
      let b := (lookupAL "bytes" d).getD .vnull
      let d := removeAL "bytes" d
      StringType.init b ((lookupAL "variable" d).getD (.vbool true))
        (removeAL "variable" (removeAL "bytes_" d)) reg
  | "bytes" =>
    if (lookupAL "bytes" d).isNone then
      .error (.valueError "'bytes' attribute is required for 'bytes' type.")
    else
      let b := (lookupAL "bytes" d).getD .vnull
      let d := removeAL "bytes" d
      BytesType.init b ((lookupAL "variable" d).getD (.vbool true))
        (removeAL "variable" (removeAL "bytes_" d)) reg
  | "list" =>
    if (lookupAL "values" d).isNone then
      .error (.valueError "'values' attribute is required for 'list' type.")
    else
      let p := popAL "values" d
      let d := p.2
      do
        let (elemT, reg) ← fromDictV rec (p.1.getD .vnull) reg
        ListType.init (.vtype elemT) ((lookupAL "length" d).getD .vnull)
          ((lookupAL "variable" d).getD (.vbool true))
          (removeAL "variable" (removeAL "length" d)) reg
  | "map" =>
    if (lookupAL "keys" d).isNone || (lookupAL "values" d).isNone then
      .error (.valueError "'keys' and 'values' attributes are required for 'map' type.")
    else
      let pk := popAL "keys" d
      let pv := popAL "values" pk.2
      do
        let (keyT, reg) ← fromDictV rec (pk.1.getD .vnull) reg
        let (valT, reg) ← fromDictV rec (pv.1.getD .vnull) reg
        MapType.init (.vtype keyT) (.vtype valT) pv.2 reg
  | "struct" =>
    match (lookupAL "fields" d).getD (.vlist .nil) with
    | .vlist fs => do
      let (fts, reg) ← parseEach rec fs reg
      StructType.init (.vlist (toVtypeList fts)) (removeAL "fields" d) reg
    | _ => .error (.typeError "'fields' value is not iterable")
  | "enum" =>
    if (lookupAL "symbols" d).isNone then
      .error (.valueError "'symbols' attribute is required for 'enum' type.")
    else
      EnumType.init ((lookupAL "symbols" d).getD .vnull) (removeAL "symbols" d) reg
  | "union" =>
    if (lookupAL "types" d).isNone then
      .error (.valueError "'types' attribute is required for 'union' type.")
    else
      let p := popAL "types" d
      match p.1.getD .vnull with
      | .vlist ts => do
        let (uts, reg) ← parseEach rec ts reg
        UnionType.init (.vlist (toVtypeList uts)) p.2 reg
      | _ => .error (.typeError "'types' value is not iterable")
  | other => ProxyType.init (.vstr other) d reg

/-- `from_dict` after the `alias` pop: pop `type` and dispatch on its shape
(missing/`None`, sequence for the union shorthand, string tag, anything
else a validation error). -/
def fromDictDispatch (rec : AttrList → Registry → Except Err (RecapType × Registry))
    (d : AttrList) (reg : Registry) : Except Err (RecapType × Registry) :=
  let pt := popAL "type" d
  match pt.1.getD .vnull with
  | .vnull =>
    .error (.valueError "'type' is a required field and was not found in the dictionary.")
  | .vlist ts => do
    let (us, reg) ← parseUnionElems rec ts reg
    UnionType.init (.vlist (toVtypeList us)) pt.2 reg
  | .vstr name => dispatchTag rec name pt.2 reg
  | _ => .error (.valueError "'type' must be a string or list.")

/-- The body of `from_dict` given its recursive instance: pop `alias`,
dispatch on `type`, and — if the popped `alias` is truthy — bind it to the
result in the registry with no uniqueness check (source lines 374-376). -/
def fromDictCore (rec : AttrList → Registry → Except Err (RecapType × Registry))
    (d : AttrList) (reg : Registry) : Except Err (RecapType × Registry) :=
  let pa := popAL "alias" d
  let aliasV := pa.1.getD .vnull
  match fromDictDispatch rec pa.2 reg with
  | .ok (t, reg) =>
    if truthy aliasV then .ok (t, regSet aliasV t reg) else .ok (t, reg)
  | e => e

/-- `from_dict` (source lines 294-378), with a recursion-depth fuel that the
Python call stack supplies implicitly; every claim is insensitive to the
fuel as long as it covers the nesting depth of the input. -/
def fromDict : Nat → AttrList → Registry → Except Err (RecapType × Registry)
  | 0, _, _ => .error .outOfFuel
  | n + 1, d, reg => fromDictCore (fromDict n) d reg

/-- `ProxyType(s)`: a freshly constructed proxy with target alias `s`, no
overrides, empty cache (what `ProxyType.__init__` without keywords builds,
and what `from_dict` builds for an unknown tag with no sibling keys). -/
def proxyTo (s : String) : RecapType :=
  .proxyT (.mk (.vstr "proxy") .vnull (.vstr s) .vnull (.vdict .anil)) .vnull

/-- A registry holding the cyclic chain `A -> B -> A` (as built by
`from_dict({"type": "B", "alias": "A"})` and
`from_dict({"type": "A", "alias": "B"})` on an empty registry). -/
def regCyc : Registry := [(.vstr "A", proxyTo "B"), (.vstr "B", proxyTo "A")]

/-- A proxy to `uuid` whose override set is `{"doc": "user id"}`. -/
def uuidProxy : RecapType :=
  .proxyT (.mk (.vstr "proxy") .vnull (.vstr "uuid") .vnull
    (.vdict (.acons "doc" (.vstr "user id") .anil))) .vnull

/-- The concrete type `resolve()` produces for `uuidProxy`: the registered
`uuid` String type with `doc` overridden. -/
def uuidResolved : RecapType :=
  .stringT (.mk (.vstr "string") (.vstr "build.recap.UUID") .vnull
    (.vstr "user id") (.vdict .anil)) (.vint 36) (.vbool false)

/-- The eleven type tags `from_dict` dispatches on; any other string tag
falls through to the Proxy case. -/
def knownTag (s : String) : Bool :=
  s == "null" || s == "bool" || s == "int" || s == "float" || s == "string" ||
  s == "bytes" || s == "list" || s == "map" || s == "struct" || s == "enum" ||
  s == "union"

/-- Whether a union-shorthand element is of a kind the loop parses
(a mapping or a string); anything else is skipped. -/
def unionElemParsed : Value → Bool
  | .vdict _ => true
  | .vstr _ => true
  | _ => false

/-- Length of a Python list. -/
def vlLen : ValueList → Nat
  | .nil => 0
  | .cons _ rest => vlLen rest + 1

/-! Helper lemmas shared by the claim theorems. -/

theorem popAL_snd (k : String) : (d : AttrList) → (popAL k d).2 = removeAL k d
  | .anil => rfl
  | .acons k' v rest => by
    simp only [popAL, removeAL]
    split <;> simp [popAL_snd k rest]

theorem popAL_fst (k : String) : (d : AttrList) → (popAL k d).1 = lookupAL k d
  | .anil => rfl
  | .acons k' v rest => by
    simp only [popAL, lookupAL]
    split <;> simp [popAL_fst k rest]

theorem lookupAL_removeAL_of_none (k k2 : String) :
    (d : AttrList) → lookupAL k d = none → lookupAL k (removeAL k2 d) = none
  | .anil, _ => rfl
  | .acons k' v rest, h => by
    simp only [lookupAL] at h
    by_cases hk : k = k'
    · simp [hk] at h
    · simp only [removeAL]
      split
      · simpa [lookupAL, hk] using h
      · simp only [lookupAL, hk, if_neg]
        exact lookupAL_removeAL_of_none k k2 rest (by simpa [lookupAL, hk] using h)

theorem pyEq_vstr_self (s : String) : pyEq (.vstr s) (.vstr s) = true := by
  simp [pyEq]

theorem regLookup_regSet_self (s : String) (t : RecapType) :
    (reg : Registry) → regLookup (.vstr s) (regSet (.vstr s) t reg) = some t
  | [] => by simp [regSet, regLookup, pyEq_vstr_self]
  | (k', t') :: rest => by
    simp only [regSet]
    split
    · next h => simp [regLookup, h]
    · next h => simp [regLookup, h, regLookup_regSet_self s t rest]

theorem lookupAL_dictSet_self (k : String) (v : Value) :
    (d : AttrList) → lookupAL k (dictSet k v d) = some v
  | .anil => by simp [dictSet, lookupAL]
  | .acons k' v' rest => by
    simp only [dictSet]
    split
    · next h => simp [lookupAL, h]
    · next h => simp [lookupAL, h, lookupAL_dictSet_self k v rest]

/-- C5: resolving a Proxy never changes the registry: for every proxy value
and registry state, the registry after `resolve` is the registry before, so
every alias (in particular the proxy's target) still maps to the same
canonical entry.  `resolve` works on a copy of the entry and writes only
the proxy's own `_resolved` attribute. -/
theorem c5_resolve_preserves_registry (p : RecapType) (reg : Registry) :
    (RecapType.resolve p reg).2.2 = reg ∧
    ∀ k, regLookup k (RecapType.resolve p reg).2.2 = regLookup k reg := by
  have h : (RecapType.resolve p reg).2.2 = reg := by
    cases p
    all_goals simp only [RecapType.resolve]
    all_goals repeat' split
    all_goals rfl
  exact ⟨h, fun k => by rw [h]⟩

/-- C1 counterexample: with the cyclic alias chain `A -> B -> A` in the
registry, `resolve()` on a proxy to `A` does not raise any error — let
alone a cyclic-alias error — and does not reach a non-Proxy variant: it
returns (and caches) a copy of the Proxy registered under `A`, and a
further `resolve()` of that copy likewise succeeds, yielding a proxy to
`A` again. -/
theorem c1_counterexample :
    RecapType.resolve (proxyTo "A") regCyc =
      (.ok (.vtype (proxyTo "B")),
       .proxyT (.mk (.vstr "proxy") .vnull (.vstr "A") .vnull (.vdict .anil))
         (.vtype (proxyTo "B")), regCyc) ∧
    RecapType.resolve (proxyTo "B") regCyc =
      (.ok (.vtype (proxyTo "A")),
       .proxyT (.mk (.vstr "proxy") .vnull (.vstr "B") .vnull (.vdict .anil))
         (.vtype (proxyTo "A")), regCyc) :=
  ⟨rfl, rfl⟩

/-- C1 (amended): `resolve()` performs exactly one resolution step — look
up the target alias, deep-copy the entry found, apply the overrides — with
no cycle detection: whenever the registered target is itself a Proxy, the
call succeeds and returns that Proxy (no cyclic-alias error is raised and
no chain walking happens), so a cyclic chain never resolves to a non-Proxy
variant while each individual call still terminates. -/
theorem c1_resolve_single_step (s : String) (b : Base) (c : Value) (reg : Registry)
    (h : regLookup (.vstr s) reg = some (.proxyT b c)) :
    RecapType.resolve (proxyTo s) reg =
      (.ok (.vtype (.proxyT b c)),
       .proxyT (.mk (.vstr "proxy") .vnull (.vstr s) .vnull (.vdict .anil))
         (.vtype (.proxyT b c)), reg) := by
  simp [RecapType.resolve, proxyTo, fromAlias, Base.aliasA, Base.extraA, h, applyAll]

/-- C1 witness: the amended single-step statement applied to the cyclic
registry `regCyc` at alias `A`. -/
theorem c1_witness :
    regLookup (.vstr "A") regCyc =
      some (.proxyT (.mk (.vstr "proxy") .vnull (.vstr "B") .vnull (.vdict .anil)) .vnull) ∧
    RecapType.resolve (proxyTo "A") regCyc =
      (.ok (.vtype (.proxyT (.mk (.vstr "proxy") .vnull (.vstr "B") .vnull (.vdict .anil)) .vnull)),
       .proxyT (.mk (.vstr "proxy") .vnull (.vstr "A") .vnull (.vdict .anil))
         (.vtype (.proxyT (.mk (.vstr "proxy") .vnull (.vstr "B") .vnull (.vdict .anil)) .vnull)),
       regCyc) :=
  ⟨rfl, c1_resolve_single_step "A" _ _ regCyc rfl⟩

/-- C2: registration at construction enforces alias uniqueness.  In the
shared base-class registration step, a key already present in the registry
makes construction fail with the alias-collision `ValueError` (so the
registry keeps its existing binding), while a fresh key binds the name to
the new instance.  Instantiated on `IntType(bits, signed, alias=s, ...)`:
with `s` taken, construction errors; with `s` fresh, the constructed
instance is returned and the registry maps `s` to it. -/
theorem c2_alias_uniqueness :
    (∀ (s : String) (t : RecapType) (reg : Registry),
      (regLookup (.vstr s) reg).isSome = true →
      registerKey (.vstr s) t reg =
        .error (.valueError ("Alias " ++ s ++ " is already used."))) ∧
    (∀ (s : String) (t : RecapType) (reg : Registry),
      regLookup (.vstr s) reg = none →
      registerKey (.vstr s) t reg = .ok (regSet (.vstr s) t reg) ∧
      regLookup (.vstr s) (regSet (.vstr s) t reg) = some t) ∧
    (∀ (bits signed : Value) (kwargs : AttrList) (reg : Registry) (s : String),
      lookupAL "alias" kwargs = some (.vstr s) →
      lookupAL "type_" kwargs = none →
      (regLookup (.vstr s) reg).isSome = true →
      IntType.init bits signed kwargs reg =
        .error (.valueError ("Alias " ++ s ++ " is already used."))) ∧
    (∀ (bits signed : Value) (kwargs : AttrList) (reg : Registry) (s : String),
      lookupAL "alias" kwargs = some (.vstr s) →
      lookupAL "type_" kwargs = none →
      regLookup (.vstr s) reg = none →
      IntType.init bits signed kwargs reg =
        .ok (.intT (initBase "int" kwargs) bits signed,
          regSet (.vstr s) (.intT (initBase "int" kwargs) bits signed) reg) ∧
      regLookup (.vstr s)
          (regSet (.vstr s) (.intT (initBase "int" kwargs) bits signed) reg) =
        some (.intT (initBase "int" kwargs) bits signed)) := by
  refine ⟨?_, ?_, ?_, ?_⟩
  · intro s t reg h
    simp [registerKey, h, pyStr]
  · intro s t reg h
    exact ⟨by simp [registerKey, h], regLookup_regSet_self s t reg⟩
  · intro bits signed kwargs reg s h1 h2 h3
    simp [IntType.init, recapInit, h2, initBase, Base.aliasA, h1, registerKey, h3, pyStr,
      Bind.bind, Except.bind]
  · intro bits signed kwargs reg s h1 h2 h3
    constructor
    · simp [IntType.init, recapInit, h2, initBase, Base.aliasA, h1, registerKey, h3,
        Bind.bind, Except.bind]
    · exact regLookup_regSet_self s _ reg

/-- C2 witness: the four parts of the uniqueness theorem at concrete
inputs — re-registering the built-in alias `int8` fails with the collision
error, and registering the fresh alias `myint` succeeds and binds it. -/
theorem c2_witness :
    (regLookup (.vstr "int8") type_registry0).isSome = true ∧
    registerKey (.vstr "int8") (.boolT (initBase "bool" .anil)) type_registry0 =
      .error (.valueError "Alias int8 is already used.") ∧
    regLookup (.vstr "myint") type_registry0 = none ∧
    IntType.init (.vint 8) (.vbool true) (AL [("alias", .vstr "myint")]) type_registry0 =
      .ok (.intT (initBase "int" (AL [("alias", .vstr "myint")])) (.vint 8) (.vbool true),
        regSet (.vstr "myint")
          (.intT (initBase "int" (AL [("alias", .vstr "myint")])) (.vint 8) (.vbool true))
          type_registry0) ∧
    IntType.init (.vint 8) (.vbool true) (AL [("alias", .vstr "int8")]) type_registry0 =
      .error (.valueError "Alias int8 is already used.") := by
  refine ⟨rfl, ?_, rfl, ?_, ?_⟩
  · exact c2_alias_uniqueness.1 "int8" _ type_registry0 rfl
  · exact (c2_alias_uniqueness.2.2.2 (.vint 8) (.vbool true)
      (AL [("alias", .vstr "myint")]) type_registry0 "myint" rfl rfl rfl).1
  · exact c2_alias_uniqueness.2.2.1 (.vint 8) (.vbool true)
      (AL [("alias", .vstr "int8")]) type_registry0 "int8" rfl rfl rfl

/-- C3 counterexample: a mapping that carries a top-level `alias` key whose
value is the empty string.  The parser succeeds but does not bind the name:
the registration guard is `if alias:` (truthiness), not a check for key
presence, so the returned registry is exactly the input registry and the
empty name stays unbound. -/
theorem c3_counterexample :
    fromDict 1 (AL [("type", .vstr "bool"), ("alias", .vstr "")]) type_registry0 =
      .ok (.boolT (initBase "bool" .anil), type_registry0) ∧
    regLookup (.vstr "") type_registry0 = none :=
  ⟨rfl, rfl⟩

/-- C3 (amended): for every input mapping carrying a top-level `alias` key
with a truthy value — e.g. any non-empty string name — whenever the rest of
the parse succeeds, `from_dict` binds that name to the freshly constructed
type with no uniqueness check: the result registry is literally
`regSet alias result`, overwriting any previous binding silently (in
contrast to the constructor path of C2). -/
theorem c3_parser_alias_overwrite (n : Nat) (d : AttrList) (reg reg1 : Registry)
    (s : String) (t : RecapType)
    (h1 : (popAL "alias" d).1 = some (.vstr s))
    (h2 : s.isEmpty = false)
    (h3 : fromDictDispatch (fromDict n) (popAL "alias" d).2 reg = .ok (t, reg1)) :
    fromDict (n + 1) d reg = .ok (t, regSet (.vstr s) t reg1) ∧
    regLookup (.vstr s) (regSet (.vstr s) t reg1) = some t := by
  constructor
  · simp [fromDict, fromDictCore, h1, h3, truthy, h2]
  · exact regLookup_regSet_self s t reg1

/-- C3 witness: parsing `{"type": "bool", "alias": "int8"}` over the
built-in registry silently rebinds the already-registered built-in alias
`int8` to the new Bool type. -/
theorem c3_witness :
    regLookup (.vstr "int8") type_registry0 =
      some (.intT (initBase "int" .anil) (.vint 8) (.vbool true)) ∧
    fromDict 2 (AL [("type", .vstr "bool"), ("alias", .vstr "int8")]) type_registry0 =
      .ok (.boolT (initBase "bool" .anil),
        regSet (.vstr "int8") (.boolT (initBase "bool" .anil)) type_registry0) ∧
    regLookup (.vstr "int8")
        (regSet (.vstr "int8") (.boolT (initBase "bool" .anil)) type_registry0) =
      some (.boolT (initBase "bool" .anil)) := by
  have h := c3_parser_alias_overwrite 1
    (AL [("type", .vstr "bool"), ("alias", .vstr "int8")]) type_registry0
    type_registry0 "int8" (.boolT (initBase "bool" .anil)) rfl rfl rfl
  exact ⟨rfl, h.1, h.2⟩

theorem getattrB_setattrB (b : Base) (a : String) (v : Value)
    (h : (getattrB b a).isSome = true) : getattrB (setattrB b a v) a = some v := by
  cases b
  simp only [getattrB, setattrB] at *
  split_ifs at * <;> simp_all [getattrB]

/-- C4: applying a proxy override entry `(a, v)` to the resolved copy
overwrites the attribute in place when the copy has an instance attribute of
that name, and otherwise merges the entry into the copy's own `extra_attrs`
dict; and concretely, resolving a proxy to `uuid` whose override set is
`{"doc": "user id"}` yields the String type with `bytes_` 36, `variable`
false, the UUID logical type and the overridden doc, leaving the registry
untouched. -/
theorem c4_override_or_merge :
    (∀ (t : RecapType) (a : String) (v : Value),
      hasattrF t a = true → getattrF (setattrF t a v) a = some v ∧
        applyOverride t a v = .ok (setattrF t a v)) ∧
    (∀ (t : RecapType) (a : String) (v : Value) (d : AttrList),
      hasattrF t a = false → (RecapType.baseOf t).extraA = .vdict d →
      applyOverride t a v = .ok (setExtraF t (.vdict (dictSet a v d))) ∧
      lookupAL a (dictSet a v d) = some v) ∧
    RecapType.resolve uuidProxy type_registry0 =
      (.ok (.vtype uuidResolved),
       .proxyT (.mk (.vstr "proxy") .vnull (.vstr "uuid") .vnull
         (.vdict (.acons "doc" (.vstr "user id") .anil))) (.vtype uuidResolved),
       type_registry0) := by
  refine ⟨?_, ?_, rfl⟩
  · intro t a v h
    refine ⟨?_, by simp [applyOverride, h]⟩
    cases t <;> simp only [hasattrF, getattrF, setattrF] at *
    all_goals
      first
      | exact getattrB_setattrB _ a v h
      | (split_ifs at * <;> simp_all [getattrF, getattrB_setattrB])
  · intro t a v d h he
    exact ⟨by simp [applyOverride, h, he], lookupAL_dictSet_self a v d⟩

/-- C4 witness: the overwrite branch at an `IntType` copy and attribute
`bits`, and the merge branch at attribute `unit` (not an instance
attribute), both at concrete values. -/
theorem c4_witness :
    (hasattrF (.intT (initBase "int" .anil) (.vint 8) (.vbool true)) "bits" = true ∧
      getattrF (setattrF (.intT (initBase "int" .anil) (.vint 8) (.vbool true))
        "bits" (.vint 16)) "bits" = some (.vint 16)) ∧
    (hasattrF (.intT (initBase "int" .anil) (.vint 8) (.vbool true)) "unit" = false ∧
      applyOverride (.intT (initBase "int" .anil) (.vint 8) (.vbool true))
          "unit" (.vstr "second") =
        .ok (setExtraF (.intT (initBase "int" .anil) (.vint 8) (.vbool true))
          (.vdict (dictSet "unit" (.vstr "second") .anil)))) :=
  ⟨⟨rfl, (c4_override_or_merge.1 (.intT (initBase "int" .anil) (.vint 8) (.vbool true))
      "bits" (.vint 16) rfl).1⟩,
   ⟨rfl, (c4_override_or_merge.2.1 (.intT (initBase "int" .anil) (.vint 8) (.vbool true))
      "unit" (.vstr "second") .anil rfl rfl).1⟩⟩

/-- C6: the union shorthand.  Concretely, `{"type": ["null", "int32"]}`
parses to a Union whose alternatives are a Null type followed by a Proxy to
`int32`, in that order; reversing the element list reverses the
alternatives; sibling keys (here `doc`) become attributes of the Union; and
in general every unknown string tag dispatches to the Proxy constructor,
which is how a bare string element resolves to a Proxy to that alias. -/
theorem c6_union_shorthand :
    fromDict 2 (AL [("type", .vlist (VL [.vstr "null", .vstr "int32"]))]) type_registry0 =
      .ok (.unionT (initBase "union" .anil)
        (.vlist (VL [.vtype (.nullT (initBase "null" .anil)), .vtype (proxyTo "int32")])),
        type_registry0) ∧
    fromDict 2 (AL [("type", .vlist (VL [.vstr "int32", .vstr "null"]))]) type_registry0 =
      .ok (.unionT (initBase "union" .anil)
        (.vlist (VL [.vtype (proxyTo "int32"), .vtype (.nullT (initBase "null" .anil))])),
        type_registry0) ∧
    fromDict 2 (AL [("type", .vlist (VL [.vstr "null"])), ("doc", .vstr "maybe")])
        type_registry0 =
      .ok (.unionT (initBase "union" (AL [("doc", .vstr "maybe")]))
        (.vlist (VL [.vtype (.nullT (initBase "null" .anil))])), type_registry0) ∧
    (∀ (n : Nat) (s : String) (d : AttrList) (reg : Registry),
      knownTag s = false →
      dispatchTag (fromDict n) s d reg = ProxyType.init (.vstr s) d reg) := by
  refine ⟨rfl, rfl, rfl, ?_⟩
  intro n s d reg h
  simp only [dispatchTag]
  split <;> simp_all [knownTag]

/-- C6 witness: the unknown-tag conjunct applied at the tag `int32` (not
one of the eleven dispatch tags), yielding a fresh Proxy to `int32`. -/
theorem c6_witness :
    knownTag "int32" = false ∧
    dispatchTag (fromDict 0) "int32" .anil ([] : Registry) =
      .ok (proxyTo "int32", ([] : Registry)) := by
  refine ⟨rfl, ?_⟩
  rw [c6_union_shorthand.2.2.2 0 "int32" .anil ([] : Registry) rfl]
  rfl

theorem lookupAL_removeAL2_of_none (k k2 k3 : String) (d : AttrList)
    (h : lookupAL k d = none) :
    lookupAL k (removeAL k2 (removeAL k3 d)) = none :=
  lookupAL_removeAL_of_none k k2 _ (lookupAL_removeAL_of_none k k3 d h)

theorem fromDict_dispatch_error (n : Nat) (d : AttrList) (reg : Registry)
    (name : String) (e : Err)
    (h1 : lookupAL "type" (removeAL "alias" d) = some (.vstr name))
    (h2 : dispatchTag (fromDict n) name (removeAL "type" (removeAL "alias" d)) reg =
      .error e) :
    fromDict (n + 1) d reg = .error e := by
  simp [fromDict, fromDictCore, fromDictDispatch, popAL_snd, popAL_fst, h1, h2]

/-- C7: per-variant required-field validation and `type`-shape validation in
the parser.  For every input mapping: a missing (or `None`) `type` key fails;
a `type` value that is neither a string nor a sequence fails; and, when the
tag is `int`, `float`, `string`, `bytes`, `list`, `map`, `enum` or `union`
but the respective required key (`bits`; `bits`; `bytes`; `bytes`; `values`;
`keys` and `values`; `symbols`; `types`) is absent, parsing fails with the
corresponding `ValueError`, synchronously. -/
theorem c7_required_field_validation :
    (∀ (n : Nat) (d : AttrList) (reg : Registry),
      lookupAL "type" (removeAL "alias" d) = none ∨
        lookupAL "type" (removeAL "alias" d) = some .vnull →
      fromDict (n + 1) d reg =
        .error (.valueError "'type' is a required field and was not found in the dictionary.")) ∧
    (∀ (n : Nat) (d : AttrList) (reg : Registry) (tv : Value),
      lookupAL "type" (removeAL "alias" d) = some tv →
      (∀ s, tv ≠ .vstr s) → (∀ l, tv ≠ .vlist l) → tv ≠ .vnull →
      fromDict (n + 1) d reg = .error (.valueError "'type' must be a string or list.")) ∧
    (∀ (n : Nat) (d : AttrList) (reg : Registry),
      lookupAL "type" (removeAL "alias" d) = some (.vstr "int") →
      lookupAL "bits" d = none →
      fromDict (n + 1) d reg =
        .error (.valueError "'bits' attribute is required for 'int' type.")) ∧
    (∀ (n : Nat) (d : AttrList) (reg : Registry),
      lookupAL "type" (removeAL "alias" d) = some (.vstr "float") →
      lookupAL "bits" d = none →
      fromDict (n + 1) d reg =
        .error (.valueError "'bits' attribute is required for 'float' type.")) ∧
    (∀ (n : Nat) (d : AttrList) (reg : Registry),
      lookupAL "type" (removeAL "alias" d) = some (.vstr "string") →
      lookupAL "bytes" d = none →
      fromDict (n + 1) d reg =
        .error (.valueError "'bytes' attribute is required for 'string' type.")) ∧
    (∀ (n : Nat) (d : AttrList) (reg : Registry),
      lookupAL "type" (removeAL "alias" d) = some (.vstr "bytes") →
      lookupAL "bytes" d = none →
      fromDict (n + 1) d reg =
        .error (.valueError "'bytes' attribute is required for 'bytes' type.")) ∧
    (∀ (n : Nat) (d : AttrList) (reg : Registry),
      lookupAL "type" (removeAL "alias" d) = some (.vstr "list") →
      lookupAL "values" d = none →
      fromDict (n + 1) d reg =
        .error (.valueError "'values' attribute is required for 'list' type.")) ∧
    (∀ (n : Nat) (d : AttrList) (reg : Registry),
      lookupAL "type" (removeAL "alias" d) = some (.vstr "map") →
      lookupAL "keys" d = none ∨ lookupAL "values" d = none →
      fromDict (n + 1) d reg =
        .error (.valueError "'keys' and 'values' attributes are required for 'map' type.")) ∧
    (∀ (n : Nat) (d : AttrList) (reg : Registry),
      lookupAL "type" (removeAL "alias" d) = some (.vstr "enum") →
      lookupAL "symbols" d = none →
      fromDict (n + 1) d reg =
        .error (.valueError "'symbols' attribute is required for 'enum' type.")) ∧
    (∀ (n : Nat) (d : AttrList) (reg : Registry),
      lookupAL "type" (removeAL "alias" d) = some (.vstr "union") →
      lookupAL "types" d = none →
      fromDict (n + 1) d reg =
        .error (.valueError "'types' attribute is required for 'union' type.")) := by
  refine ⟨?_, ?_, ?_, ?_, ?_, ?_, ?_, ?_, ?_, ?_⟩
  · intro n d reg h
    rcases h with h | h <;>
      simp [fromDict, fromDictCore, fromDictDispatch, popAL_snd, popAL_fst, h]
  · intro n d reg tv h hs hl hn
    cases tv <;>
      first
      | exact absurd rfl hn
      | exact absurd rfl (hs _)
      | exact absurd rfl (hl _)
      | simp [fromDict, fromDictCore, fromDictDispatch, popAL_snd, popAL_fst, h]
  · intro n d reg h1 h2
    exact fromDict_dispatch_error n d reg "int" _ h1
      (by simp [dispatchTag, lookupAL_removeAL2_of_none "bits" "type" "alias" d h2])
  · intro n d reg h1 h2
    exact fromDict_dispatch_error n d reg "float" _ h1
      (by simp [dispatchTag, lookupAL_removeAL2_of_none "bits" "type" "alias" d h2])
  · intro n d reg h1 h2
    exact fromDict_dispatch_error n d reg "string" _ h1
      (by simp [dispatchTag, lookupAL_removeAL2_of_none "bytes" "type" "alias" d h2])
  · intro n d reg h1 h2
    exact fromDict_dispatch_error n d reg "bytes" _ h1
      (by simp [dispatchTag, lookupAL_removeAL2_of_none "bytes" "type" "alias" d h2])
  · intro n d reg h1 h2
    exact fromDict_dispatch_error n d reg "list" _ h1
      (by simp [dispatchTag, lookupAL_removeAL2_of_none "values" "type" "alias" d h2])
  · intro n d reg h1 h2
    refine fromDict_dispatch_error n d reg "map" _ h1 ?_
    rcases h2 with h2 | h2
    · simp [dispatchTag, lookupAL_removeAL2_of_none "keys" "type" "alias" d h2]
    · simp [dispatchTag, lookupAL_removeAL2_of_none "values" "type" "alias" d h2]
  · intro n d reg h1 h2
    exact fromDict_dispatch_error n d reg "enum" _ h1
      (by simp [dispatchTag, lookupAL_removeAL2_of_none "symbols" "type" "alias" d h2])
  · intro n d reg h1 h2
    exact fromDict_dispatch_error n d reg "union" _ h1
      (by simp [dispatchTag, lookupAL_removeAL2_of_none "types" "type" "alias" d h2])

/-- C7 witness: each validation conjunct applied at a concrete mapping over
the empty registry. -/
theorem c7_witness :
    fromDict 1 (AL [("bits", .vint 8)]) ([] : Registry) =
      .error (.valueError "'type' is a required field and was not found in the dictionary.") ∧
    fromDict 1 (AL [("type", .vint 3)]) ([] : Registry) =
      .error (.valueError "'type' must be a string or list.") ∧
    fromDict 1 (AL [("type", .vstr "int")]) ([] : Registry) =
      .error (.valueError "'bits' attribute is required for 'int' type.") ∧
    fromDict 1 (AL [("type", .vstr "float")]) ([] : Registry) =
      .error (.valueError "'bits' attribute is required for 'float' type.") ∧
    fromDict 1 (AL [("type", .vstr "string")]) ([] : Registry) =
      .error (.valueError "'bytes' attribute is required for 'string' type.") ∧
    fromDict 1 (AL [("type", .vstr "bytes")]) ([] : Registry) =
      .error (.valueError "'bytes' attribute is required for 'bytes' type.") ∧
    fromDict 1 (AL [("type", .vstr "list")]) ([] : Registry) =
      .error (.valueError "'values' attribute is required for 'list' type.") ∧
    fromDict 1 (AL [("type", .vstr "map"), ("keys", .vdict (AL [("type", .vstr "bool")]))])
        ([] : Registry) =
      .error (.valueError "'keys' and 'values' attributes are required for 'map' type.") ∧
    fromDict 1 (AL [("type", .vstr "enum")]) ([] : Registry) =
      .error (.valueError "'symbols' attribute is required for 'enum' type.") ∧
    fromDict 1 (AL [("type", .vstr "union")]) ([] : Registry) =
      .error (.valueError "'types' attribute is required for 'union' type.") := by
  refine ⟨?_, ?_, ?_, ?_, ?_, ?_, ?_, ?_, ?_, ?_⟩
  · exact c7_required_field_validation.1 0 _ _ (Or.inl rfl)
  · exact c7_required_field_validation.2.1 0 _ _ (.vint 3) rfl
      (fun s h => Value.noConfusion h) (fun l h => Value.noConfusion h)
      (fun h => Value.noConfusion h)
  · exact c7_required_field_validation.2.2.1 0 _ _ rfl rfl
  · exact c7_required_field_validation.2.2.2.1 0 _ _ rfl rfl
  · exact c7_required_field_validation.2.2.2.2.1 0 _ _ rfl rfl
  · exact c7_required_field_validation.2.2.2.2.2.1 0 _ _ rfl rfl
  · exact c7_required_field_validation.2.2.2.2.2.2.1 0 _ _ rfl rfl
  · exact c7_required_field_validation.2.2.2.2.2.2.2.1 0 _ _ rfl (Or.inr rfl)
  · exact c7_required_field_validation.2.2.2.2.2.2.2.2.1 0 _ _ rfl rfl
  · exact c7_required_field_validation.2.2.2.2.2.2.2.2.2 0 _ _ rfl rfl

/-- C8: equality is structural and variant-by-variant.  Equal instances are
always of the same class; equal proxies always have Python-equal target
aliases (so proxies with different targets are unequal); a proxy is never
equal to an instance of any non-proxy class (in particular not to the
concrete type it resolves to); two independently built identical `IntType`
trees compare equal while changing `bits`, `signed`, `logical`, `doc` or an
extra attribute alone makes them unequal; and equality recurses into nested
type trees (struct fields). -/
theorem c8_structural_equality :
    (∀ a b : RecapType, recapEq a b = true → a.clsOf = b.clsOf) ∧
    (∀ (b1 b2 : Base) (c1 c2 : Value),
      recapEq (.proxyT b1 c1) (.proxyT b2 c2) = true →
      pyEq b1.aliasA b2.aliasA = true) ∧
    (∀ (b : Base) (c : Value) (t : RecapType), t.clsOf ≠ "ProxyType" →
      recapEq (.proxyT b c) t = false) ∧
    recapEq (.intT (initBase "int" .anil) (.vint 8) (.vbool true))
      (.intT (initBase "int" .anil) (.vint 8) (.vbool true)) = true ∧
    recapEq (.intT (initBase "int" .anil) (.vint 8) (.vbool true))
      (.intT (initBase "int" .anil) (.vint 16) (.vbool true)) = false ∧
    recapEq (.intT (initBase "int" .anil) (.vint 8) (.vbool true))
      (.intT (initBase "int" .anil) (.vint 8) (.vbool false)) = false ∧
    recapEq (.intT (initBase "int" (AL [("logical", .vstr "L")])) (.vint 8) (.vbool true))
      (.intT (initBase "int" .anil) (.vint 8) (.vbool true)) = false ∧
    recapEq (.intT (initBase "int" (AL [("doc", .vstr "d")])) (.vint 8) (.vbool true))
      (.intT (initBase "int" .anil) (.vint 8) (.vbool true)) = false ∧
    recapEq (.intT (initBase "int" (AL [("unit", .vstr "s")])) (.vint 8) (.vbool true))
      (.intT (initBase "int" .anil) (.vint 8) (.vbool true)) = false ∧
    recapEq
      (.structT (initBase "struct" .anil)
        (.vlist (VL [.vtype (.intT (initBase "int" .anil) (.vint 8) (.vbool true))])))
      (.structT (initBase "struct" .anil)
        (.vlist (VL [.vtype (.intT (initBase "int" .anil) (.vint 8) (.vbool true))]))) =
      true ∧
    recapEq
      (.structT (initBase "struct" .anil)
        (.vlist (VL [.vtype (.intT (initBase "int" .anil) (.vint 8) (.vbool true))])))
      (.structT (initBase "struct" .anil)
        (.vlist (VL [.vtype (.intT (initBase "int" .anil) (.vint 16) (.vbool true))]))) =
      false ∧
    recapEq (proxyTo "int32") (proxyTo "int64") = false ∧
    recapEq uuidProxy uuidResolved = false := by
  refine ⟨?_, ?_, ?_, by decide, by decide, by decide, by decide, by decide, by decide,
    by decide, by decide, by decide, by decide⟩
  · intro a b h
    cases a <;> cases b <;> first | rfl | exact Bool.noConfusion h
  · intro b1 b2 c1 c2 h
    cases b1 with
    | mk t1 l1 al1 d1 e1 =>
      cases b2 with
      | mk t2 l2 al2 d2 e2 =>
        have h2 : (baseEq (.mk t1 l1 al1 d1 e1) (.mk t2 l2 al2 d2 e2) &&
          pyEq al1 al2) = true := h
        exact (Bool.and_eq_true _ _ ▸ h2).2
  · intro b c t h
    cases t <;> first | exact absurd rfl h | rfl

/-- C8 witness: the three general conjuncts applied at concrete instances —
equal ints share a class, equal proxies share a target, and a proxy is
never equal to the concrete String type it resolves to. -/
theorem c8_witness :
    RecapType.clsOf (.intT (initBase "int" .anil) (.vint 8) (.vbool true)) =
      RecapType.clsOf (.intT (initBase "int" .anil) (.vint 8) (.vbool true)) ∧
    pyEq (Base.aliasA (.mk (.vstr "proxy") .vnull (.vstr "int32") .vnull (.vdict .anil)))
      (Base.aliasA (.mk (.vstr "proxy") .vnull (.vstr "int32") .vnull (.vdict .anil))) =
      true ∧
    recapEq (.proxyT (.mk (.vstr "proxy") .vnull (.vstr "uuid") .vnull (.vdict .anil)) .vnull)
      uuidResolved = false :=
  ⟨c8_structural_equality.1 _ _ (by decide),
   c8_structural_equality.2.1 _ _ .vnull .vnull (by decide),
   c8_structural_equality.2.2.1 _ .vnull uuidResolved (by decide)⟩

/-- C9: resolution is memoized on the proxy instance.  With a non-`None`
`_resolved` cache the call returns the cached value unchanged without
consulting the registry (so the result is identical under any two registry
states); and a successful first call on a fresh proxy writes the cache so
that every subsequent call — under any registry, changed or not — returns
the same value and leaves the proxy as is.  A fresh cache exists only on a
newly constructed proxy (`ProxyType.init` sets `_resolved` to `None`). -/
theorem c9_resolve_memoized :
    (∀ (b : Base) (c : Value) (reg : Registry), c ≠ .vnull →
      RecapType.resolve (.proxyT b c) reg = (.ok c, .proxyT b c, reg)) ∧
    (∀ (b : Base) (c : Value) (reg reg' : Registry), c ≠ .vnull →
      (RecapType.resolve (.proxyT b c) reg).1 =
        (RecapType.resolve (.proxyT b c) reg').1) ∧
    (∀ (b : Base) (reg : Registry) (v : Value) (p' : RecapType),
      RecapType.resolve (.proxyT b .vnull) reg = (.ok v, p', reg) →
      ∀ reg' : Registry, RecapType.resolve p' reg' = (.ok v, p', reg')) ∧
    (∀ (aliasArg : Value) (kwargs : AttrList) (reg reg1 : Registry) (t : RecapType),
      ProxyType.init aliasArg kwargs reg = .ok (t, reg1) →
      getattrF t "_resolved" = some .vnull) := by
  refine ⟨?_, ?_, ?_, ?_⟩
  · intro b c reg h
    cases c
    · exact absurd rfl h
    all_goals rfl
  · intro b c reg reg' h
    cases c
    · exact absurd rfl h
    all_goals rfl
  · intro b reg v p' h reg'
    cases hfa : fromAlias b.aliasA reg with
    | error e => simp [RecapType.resolve, hfa] at h
    | ok target =>
      cases hex : b.extraA with
      | vdict items =>
        cases hap : applyAll target items with
        | ok r =>
          simp only [RecapType.resolve, hfa, hex, hap, Prod.mk.injEq] at h
          obtain ⟨h1, h2, -⟩ := h
          subst h2
          cases h1
          rfl
        | error ep =>
          obtain ⟨e2, part⟩ := ep
          simp [RecapType.resolve, hfa, hex, hap] at h
      | vnull => simp [RecapType.resolve, hfa, hex] at h
      | vbool x => simp [RecapType.resolve, hfa, hex] at h
      | vint x => simp [RecapType.resolve, hfa, hex] at h
      | vstr x => simp [RecapType.resolve, hfa, hex] at h
      | vlist x => simp [RecapType.resolve, hfa, hex] at h
      | vtype x => simp [RecapType.resolve, hfa, hex] at h
  · intro aliasArg kwargs reg reg1 t h
    simp only [ProxyType.init, recapInit, Bind.bind, Except.bind] at h
    split at h
    · exact Except.noConfusion h
    · split at h
      · exact Except.noConfusion h
      · next hreg =>
        simp only [Except.ok.injEq, Prod.mk.injEq] at h
        obtain ⟨ht, -⟩ := h
        subst ht
        rfl

/-- C9 witness: a proxy with a pre-set cache returns it unchanged over the
empty registry (no lookup happens); after the first successful resolution
of `uuidProxy` the updated proxy returns the cached resolution even over an
empty registry; and a freshly constructed proxy starts with a `None`
cache. -/
theorem c9_witness :
    RecapType.resolve
        (.proxyT (.mk (.vstr "proxy") .vnull (.vstr "uuid") .vnull (.vdict .anil))
          (.vint 7)) ([] : Registry) =
      (.ok (.vint 7),
       .proxyT (.mk (.vstr "proxy") .vnull (.vstr "uuid") .vnull (.vdict .anil))
         (.vint 7), ([] : Registry)) ∧
    RecapType.resolve ((RecapType.resolve uuidProxy type_registry0).2.1)
        ([] : Registry) =
      (.ok (.vtype uuidResolved),
       .proxyT (.mk (.vstr "proxy") .vnull (.vstr "uuid") .vnull
         (.vdict (.acons "doc" (.vstr "user id") .anil))) (.vtype uuidResolved),
       ([] : Registry)) ∧
    getattrF (proxyTo "X") "_resolved" = some .vnull := by
  refine ⟨?_, ?_, ?_⟩
  · exact c9_resolve_memoized.1 _ (.vint 7) [] (fun h => Value.noConfusion h)
  · exact c9_resolve_memoized.2.2.1
      (.mk (.vstr "proxy") .vnull (.vstr "uuid") .vnull
        (.vdict (.acons "doc" (.vstr "user id") .anil)))
      type_registry0 (.vtype uuidResolved)
      (.proxyT (.mk (.vstr "proxy") .vnull (.vstr "uuid") .vnull
        (.vdict (.acons "doc" (.vstr "user id") .anil))) (.vtype uuidResolved))
      rfl []
  · exact c9_resolve_memoized.2.2.2 (.vstr "X") .anil [] [] (proxyTo "X") rfl

theorem parseUnionElems_length_le
    (rec : AttrList → Registry → Except Err (RecapType × Registry)) :
    (ts : ValueList) → ∀ (reg : Registry) (us : List RecapType) (reg' : Registry),
      parseUnionElems rec ts reg = .ok (us, reg') → us.length ≤ vlLen ts
  | .nil, reg, us, reg', h => by
    simp only [parseUnionElems, Except.ok.injEq, Prod.mk.injEq] at h
    simp [← h.1, vlLen]
  | .cons v rest, reg, us, reg', h => by
    cases v with
    | vdict inner =>
      simp only [parseUnionElems, Bind.bind, Except.bind] at h
      cases h1 : rec inner reg with
      | error e => rw [h1] at h; exact Except.noConfusion h
      | ok xr =>
        obtain ⟨x, reg1⟩ := xr
        rw [h1] at h
        dsimp only at h
        cases h2 : parseUnionElems rec rest reg1 with
        | error e => rw [h2] at h; exact Except.noConfusion h
        | ok xsr =>
          obtain ⟨xs, reg2⟩ := xsr
          rw [h2] at h
          simp only [Except.ok.injEq, Prod.mk.injEq] at h
          obtain ⟨hu, -⟩ := h
          subst hu
          exact Nat.succ_le_succ (parseUnionElems_length_le rec rest reg1 xs reg2 h2)
    | vstr s =>
      simp only [parseUnionElems, Bind.bind, Except.bind] at h
      cases h1 : rec (.acons "type" (.vstr s) .anil) reg with
      | error e => rw [h1] at h; exact Except.noConfusion h
      | ok xr =>
        obtain ⟨x, reg1⟩ := xr
        rw [h1] at h
        dsimp only at h
        cases h2 : parseUnionElems rec rest reg1 with
        | error e => rw [h2] at h; exact Except.noConfusion h
        | ok xsr =>
          obtain ⟨xs, reg2⟩ := xsr
          rw [h2] at h
          simp only [Except.ok.injEq, Prod.mk.injEq] at h
          obtain ⟨hu, -⟩ := h
          subst hu
          exact Nat.succ_le_succ (parseUnionElems_length_le rec rest reg1 xs reg2 h2)
    | vnull => exact Nat.le_succ_of_le (parseUnionElems_length_le rec rest reg us reg' h)
    | vbool x => exact Nat.le_succ_of_le (parseUnionElems_length_le rec rest reg us reg' h)
    | vint x => exact Nat.le_succ_of_le (parseUnionElems_length_le rec rest reg us reg' h)
    | vlist x => exact Nat.le_succ_of_le (parseUnionElems_length_le rec rest reg us reg' h)
    | vtype x => exact Nat.le_succ_of_le (parseUnionElems_length_le rec rest reg us reg' h)

/-- C10: in the union shorthand, a sequence element that is neither a
mapping nor a string is silently skipped: the loop on the remaining
elements is unchanged, successful parses never yield more alternatives than
elements, and concretely `{"type": ["null", 42, "int32"]}` yields a Union
with only two alternatives (Null and the Proxy to `int32`) from three
elements, with no error. -/
theorem c10_union_skips_unparsed_elements :
    (∀ (rec : AttrList → Registry → Except Err (RecapType × Registry))
        (v : Value) (ts : ValueList) (reg : Registry),
      unionElemParsed v = false →
      parseUnionElems rec (.cons v ts) reg = parseUnionElems rec ts reg) ∧
    (∀ (rec : AttrList → Registry → Except Err (RecapType × Registry))
        (ts : ValueList) (reg : Registry) (us : List RecapType) (reg' : Registry),
      parseUnionElems rec ts reg = .ok (us, reg') → us.length ≤ vlLen ts) ∧
    fromDict 2 (AL [("type", .vlist (VL [.vstr "null", .vint 42, .vstr "int32"]))])
        type_registry0 =
      .ok (.unionT (initBase "union" .anil)
        (.vlist (VL [.vtype (.nullT (initBase "null" .anil)), .vtype (proxyTo "int32")])),
        type_registry0) := by
  refine ⟨?_, ?_, rfl⟩
  · intro rec v ts reg h
    cases v <;> first | rfl | exact Bool.noConfusion h
  · intro rec ts reg us reg' h
    exact parseUnionElems_length_le rec ts reg us reg' h

/-- C10 witness: the skip conjunct applied at the integer element `42`, and
the length bound applied at the three-element list parsed over the built-in
registry, yielding two alternatives. -/
theorem c10_witness :
    parseUnionElems (fromDict 1) (.cons (.vint 42) (VL [.vstr "null"])) type_registry0 =
      parseUnionElems (fromDict 1) (VL [.vstr "null"]) type_registry0 ∧
    List.length [RecapType.nullT (initBase "null" .anil), proxyTo "int32"] ≤
      vlLen (VL [.vstr "null", .vint 42, .vstr "int32"]) :=
  ⟨c10_union_skips_unparsed_elements.1 (fromDict 1) (.vint 42) (VL [.vstr "null"])
      type_registry0 rfl,
   c10_union_skips_unparsed_elements.2.1 (fromDict 1)
      (VL [.vstr "null", .vint 42, .vstr "int32"]) type_registry0
      [RecapType.nullT (initBase "null" .anil), proxyTo "int32"] type_registry0 rfl⟩
